import Mathlib

/-
Verification of the pyGAPS BET surface-area extraction and isotherm model
fitting code.

Shallow embedding conventions:
  - Python floats are idealised as rationals; numpy arrays become lists.
  - External library primitives (scipy.stats.linregress, scipy.sqrt,
    numpy.log, numpy.exp, numpy.polyfit) are taken as function parameters:
    they are external collaborators, not part of the verified core.
  - A raised Python exception becomes an Except.error value; an out-of-range
    numpy index access becomes PyErr.indexError.
  - The module-level warning emissions of warnings.warn are modelled as a
    list of warning strings accompanying the returned value.
-/

set_option linter.unusedVariables false

/-- Errors raised by the embedded code: generic Exception with its message,
numpy IndexError, NotImplementedError and pygaps CalculationError. -/
inductive PyErr where
  | exception (msg : String)
  | indexError
  | notImplementedError
  | calculationError (msg : String)
deriving DecidableEq

instance {ε α : Type} [DecidableEq ε] [DecidableEq α] : DecidableEq (Except ε α) := fun a b =>
  match a, b with
  | Except.error e, Except.error f =>
      if h : e = f then Decidable.isTrue (by rw [h]) else Decidable.isFalse (by simp [h])
  | Except.error _, Except.ok _ => Decidable.isFalse (by simp)
  | Except.ok _, Except.error _ => Decidable.isFalse (by simp)
  | Except.ok x, Except.ok y =>
      if h : x = y then Decidable.isTrue (by rw [h]) else Decidable.isFalse (by simp [h])

/-- Python non-negative integer list indexing, as used on numpy arrays:
in-range access yields the element, out-of-range raises IndexError
(modelled by the callers through the none case). -/
def pyGet : List ℚ → ℕ → Option ℚ
  | [], _ => none
  | v :: _, 0 => some v
  | _ :: rest, n + 1 => pyGet rest n

/-- Python slice l[a:b] for non-negative bounds: elements at indices
a, a+1, ..., b-1 (the upper bound is excluded), clamped to the list. -/
def pySlice (l : List ℚ) (a b : ℕ) : List ℚ :=
  (l.drop a).take (b - a)

/-- bet.py roq_transform: elementwise loading * (1 - pressure). -/
def roq_transform (loading pressure : List ℚ) : List ℚ :=
  List.zipWith (fun n p => n * (1 - p)) loading pressure

/-- bet.py bet_transform: elementwise pressure / roq_transform(loading, pressure). -/
def bet_transform (loading pressure : List ℚ) : List ℚ :=
  List.zipWith (fun p r => p / r) pressure (roq_transform loading pressure)

/-- bet.py area_BET_raw automatic-mode maximum scan (lines 229-233):
  maximum = len(roq_t_array) - 1
  for index, value in enumerate(roq_t_array):
      if value > roq_t_array[index + 1]:
          maximum = index
          break
The loop body reads roq_t_array[index + 1]; at the final index this access
is past the end of the array and raises IndexError. -/
def auto_maximum_scan : List ℚ → ℕ → ℕ → Except PyErr ℕ
  | [], _, maximum => Except.ok maximum
  | v :: rest, index, maximum =>
      match rest.head? with
      | none => Except.error PyErr.indexError
      | some next =>
          if v > next then Except.ok index
          else auto_maximum_scan rest (index + 1) maximum

/-- bet.py forward scan (lines 236-240 and 250-254):
  minimum = 0
  for index, value in enumerate(pressure):
      if value > min_p:
          minimum = index
          break
First index whose value exceeds min_p; 0 when none does. -/
def first_index_gt : List ℚ → ℚ → ℕ → ℕ
  | [], _, _ => 0
  | v :: rest, min_p, index =>
      if v > min_p then index else first_index_gt rest min_p (index + 1)

/-- bet.py manual-mode maximum scan (lines 243-247):
  maximum = len(roq_t_array) - 1
  for index, value in reversed(list(enumerate(pressure))):
      if value < max_p:
          maximum = index
          break
Scanning the enumerated list in reverse and breaking at the first hit
selects the last index whose value is below max_p; the default when no
index qualifies is len - 1.  The embedding scans forward keeping the
last matching index, which yields the same result. -/
def last_index_lt : List ℚ → ℚ → ℕ → ℕ → ℕ
  | [], _, _, maximum => maximum
  | v :: rest, max_p, index, maximum =>
      last_index_lt rest max_p (index + 1) (if v < max_p then index else maximum)

/-- bet.py area_BET_raw region selection (lines 228-254), both automatic
(limits is None) and manual (limits = (low, high)) modes. -/
def bet_select_region (roq_t_array pressure : List ℚ) (limits : Option (ℚ × ℚ)) :
    Except PyErr (ℕ × ℕ) :=
  match limits with
  | none =>
      match auto_maximum_scan roq_t_array 0 (roq_t_array.length - 1) with
      | Except.error e => Except.error e
      | Except.ok maximum =>
          match pyGet pressure maximum with
          | none => Except.error PyErr.indexError
          | some pmax =>
              let min_p := pmax / 10
              Except.ok (first_index_gt pressure min_p 0, maximum)
  | some (low, high) =>
      Except.ok (first_index_gt pressure low 0, last_index_lt pressure high 0 (pressure.length - 1))

/-- bet.py bet_optimisation: delegates to scipy.stats.linregress, keeping
slope, intercept and correlation coefficient. -/
def bet_optimisation (linregress : List ℚ → List ℚ → ℚ × ℚ × ℚ)
    (pressure bet_points : List ℚ) : ℚ × ℚ × ℚ :=
  linregress pressure bet_points

/-- scipy.constants.Avogadro. -/
def Avogadro : ℚ := 6022140857 * 10 ^ 14

/-- bet.py bet_parameters: derives the BET parameters from the regression
slope and intercept; scipy.sqrt is the external sqrtF parameter. -/
def bet_parameters (sqrtF : ℚ → ℚ) (slope intercept cross_section : ℚ) :
    ℚ × ℚ × ℚ × ℚ :=
  let c_const := (slope / intercept) + 1
  let n_monolayer := 1 / (intercept * c_const)
  let p_monolayer := 1 / (sqrtF c_const + 1)
  let bet_area := n_monolayer * cross_section * ((10 : ℚ) ^ (18 : ℕ))⁻¹ * Avogadro
  (n_monolayer, p_monolayer, c_const, bet_area)

/-- bet.py area_BET_raw consistency checks (lines 267-272): each violated
check emits one warning through warnings.warn; the emissions are modelled
as a list of the warning messages, in program order. -/
def bet_check_warnings (c_const corr_coef lmin lmax n_monolayer : ℚ) : List String :=
  (if c_const < 0 then ["The C constant is negative"] else []) ++
  (if corr_coef < 99 / 100 then ["The correlation is not linear"] else []) ++
  (if lmin > n_monolayer ∨ lmax < n_monolayer then
    ["The monolayer point is not within the BET region"] else [])

/-- The tuple returned by area_BET_raw. -/
structure BETRawResult where
  bet_area : ℚ
  c_const : ℚ
  n_monolayer : ℚ
  p_monolayer : ℚ
  slope : ℚ
  intercept : ℚ
  minimum : ℕ
  maximum : ℕ
  corr_coef : ℚ
deriving DecidableEq

/-- bet.py area_BET_raw (lines 181-275).  linregress and sqrtF stand for the
external scipy primitives.  The returned warning list models the
warnings.warn emissions of the consistency checks. -/
def area_BET_raw (linregress : List ℚ → List ℚ → ℚ × ℚ × ℚ) (sqrtF : ℚ → ℚ)
    (loading pressure : List ℚ) (cross_section : ℚ) (limits : Option (ℚ × ℚ)) :
    Except PyErr (BETRawResult × List String) :=
  if pressure.length ≠ loading.length then
    Except.error (PyErr.exception
      "The length of the pressure and loading arrays do not match")
  else
    let roq_t_array := roq_transform loading pressure
    match bet_select_region roq_t_array pressure limits with
    | Except.error e => Except.error e
    | Except.ok (minimum, maximum) =>
        let bet_t_array := bet_transform
          (pySlice loading minimum maximum) (pySlice pressure minimum maximum)
        let si := bet_optimisation linregress (pySlice pressure minimum maximum) bet_t_array
        let slope := si.1
        let intercept := si.2.1
        let corr_coef := si.2.2
        let par := bet_parameters sqrtF slope intercept cross_section
        let n_monolayer := par.1
        let p_monolayer := par.2.1
        let c_const := par.2.2.1
        let bet_area := par.2.2.2
        match pyGet loading minimum, pyGet loading maximum with
        | some lmin, some lmax =>
            Except.ok
              ({ bet_area := bet_area, c_const := c_const, n_monolayer := n_monolayer,
                 p_monolayer := p_monolayer, slope := slope, intercept := intercept,
                 minimum := minimum, maximum := maximum, corr_coef := corr_coef },
               bet_check_warnings c_const corr_coef lmin lmax n_monolayer)
        | _, _ => Except.error PyErr.indexError

/-- The isotherm sample state read (and, through convert_pressure_mode,
written) by area_BET: modes plus the adsorption-branch data arrays. -/
structure Isotherm where
  mode_adsorbent : String
  mode_pressure : String
  loading_data : List ℚ
  pressure_data : List ℚ
deriving DecidableEq

/-- Modelled from the spec: the convert_pressure_mode collaborator is not
under src/ (only its caller bet.py is).  Section 6 declares the interface
convert_pressure_mode(target) and section 9 describes the source behaviour
as the legacy pattern of converting a sample pressure mode in place; the
glossary defines relative pressure as p divided by the saturation pressure
p0.  The model therefore rescales the stored pressure data and sets the
mode flag on the same object, returned here as the updated state. -/
def convert_pressure_mode (isotherm : Isotherm) (mode : String) (p0 : ℚ) : Isotherm :=
  if mode = "relative" then
    { isotherm with mode_pressure := "relative",
                    pressure_data := isotherm.pressure_data.map (fun p => p / p0) }
  else
    { isotherm with mode_pressure := mode,
                    pressure_data := isotherm.pressure_data.map (fun p => p * p0) }

/-- The result_dict assembled by area_BET (lines 142-150). -/
structure BETResultDict where
  bet_area : ℚ
  c_const : ℚ
  n_monolayer : ℚ
  p_monolayer : ℚ
  bet_slope : ℚ
  bet_intercept : ℚ
  corr_coef : ℚ
deriving DecidableEq

/-- Assembly of the result_dict from the area_BET_raw tuple. -/
def result_dict_of (r : BETRawResult) : BETResultDict :=
  { bet_area := r.bet_area, c_const := r.c_const, n_monolayer := r.n_monolayer,
    p_monolayer := r.p_monolayer, bet_slope := r.slope, bet_intercept := r.intercept,
    corr_coef := r.corr_coef }

/-- bet.py area_BET (lines 15-178).  The adsorbate cross-section lookup and
the saturation pressure p0 used by the conversion collaborator are external
inputs.  The function returns the Python return value (or raised error)
together with the final state of the caller isotherm object.  Note that the
call to area_BET_raw at lines 138-140 passes only loading, pressure and
cross_section, so area_BET_raw runs with its default limits=None whatever
the limits argument of area_BET was; the verbose branch only prints and
plots and does not affect the returned value. -/
def area_BET (linregress : List ℚ → List ℚ → ℚ × ℚ × ℚ) (sqrtF : ℚ → ℚ)
    (p0 cross_section : ℚ) (isotherm : Isotherm) (limits : Option (ℚ × ℚ))
    (verbose : Bool) : Except PyErr BETResultDict × Isotherm :=
  if isotherm.mode_adsorbent ≠ "mass" then
    (Except.error (PyErr.exception
      "The isotherm must be in per mass of adsorbent.First convert it using implicit functions"),
     isotherm)
  else
    let isotherm1 := if isotherm.mode_pressure ≠ "relative"
      then convert_pressure_mode isotherm "relative" p0 else isotherm
    let loading := isotherm1.loading_data
    let pressure := isotherm1.pressure_data
    let raw := area_BET_raw linregress sqrtF loading pressure cross_section none
    (Except.map (fun rw => result_dict_of rw.1) raw, isotherm1)

/-- henry.py Henry.loading: KH * pressure. -/
def Henry.loading (KH pressure : ℚ) : ℚ := KH * pressure

/-- henry.py Henry.pressure: loading / KH. -/
def Henry.pressure (KH loading : ℚ) : ℚ := loading / KH

/-- henry.py Henry.spreading_pressure: KH * pressure. -/
def Henry.spreading_pressure (KH pressure : ℚ) : ℚ := KH * pressure

/-- henry.py Henry.default_guess: KH = saturation_loading * langmuir_k. -/
def Henry.default_guess (saturation_loading langmuir_k : ℚ) : ℚ :=
  saturation_loading * langmuir_k

/-- The params dictionary of the Virial model: KH, A, B, C. -/
structure VirialParams where
  KH : ℚ
  A : ℚ
  B : ℚ
  C : ℚ
deriving DecidableEq

/-- virial.py Virial.pressure: loading * exp(-log(KH) + A n + B n^2 + C n^3),
with numpy.exp and numpy.log as external parameters. -/
def Virial.pressure (expF logF : ℚ → ℚ) (params : VirialParams) (loading : ℚ) : ℚ :=
  loading * expF (-logF params.KH + params.A * loading
    + params.B * loading ^ 2 + params.C * loading ^ 3)

/-- virial.py Virial.spreading_pressure: raise NotImplementedError. -/
def Virial.spreading_pressure (pressure : ℚ) : Except PyErr ℚ :=
  Except.error PyErr.notImplementedError

/-- virial.py Virial.fit (lines 126-174).  numpy.log, numpy.exp, numpy.sqrt
and numpy.polyfit (degree 3, full output: the coefficient array ordered
highest degree first, paired with the residual sum of squares) are external
parameters.  The method overwrites every entry of self.params from the
polynomial coefficients and returns the root-mean-square error; the
param_guess and optimization_method arguments appear in the signature but
are never read, and verbose only prints and plots. -/
def Virial.fit {γ μ : Type} (logF expF sqrtF : ℚ → ℚ)
    (polyfit3 : List ℚ → List ℚ → (ℚ × ℚ × ℚ × ℚ) × ℚ)
    (loading pressure : List ℚ) (param_guess : γ) (optimization_method : μ)
    (verbose : Bool) : VirialParams × ℚ :=
  let ln_p_over_n := List.zipWith (fun p n => logF (p / n)) pressure loading
  let full_info := polyfit3 loading ln_p_over_n
  let virial_constants := full_info.1
  ({ KH := expF (-virial_constants.2.2.2), A := virial_constants.2.2.1,
     B := virial_constants.2.1, C := virial_constants.1 },
   sqrtF (full_info.2 / (pressure.length : ℚ)))

/-- Constant stand-in for the external scipy.stats.linregress in concrete
evaluations: slope, intercept and correlation all 1. -/
def constLinregress : List ℚ → List ℚ → ℚ × ℚ × ℚ := fun _ _ => (1, 1, 1)

/-- Stand-in for the external scipy.sqrt in concrete evaluations. -/
def idSqrt : ℚ → ℚ := fun x => x

/-- Regression stand-in that records, as the returned slope, how many x
points the regression engine received. -/
def lengthLinregress : List ℚ → List ℚ → ℚ × ℚ × ℚ := fun x _ => ((x.length : ℚ), 0, 0)

/-- Claim C7: for the Henry model with any parameter KH different from zero,
applying pressure after loading returns the original pressure: the two
operations are exact algebraic inverses of one another. -/
theorem c7_henry_inverse (KH p : ℚ) (h : KH ≠ 0) :
    Henry.pressure KH (Henry.loading KH p) = p := by
  unfold Henry.pressure Henry.loading
  exact mul_div_cancel_left₀ p h

theorem c7_henry_inverse_witness : Henry.pressure 2 (Henry.loading 2 3) = 3 :=
  c7_henry_inverse 2 3 (by norm_num)

/-- Claim C9: spreading_pressure on the Virial variant fails with the
NotImplemented signal for every pressure input and never returns a value. -/
theorem c9_spreading_pressure_unsupported (p : ℚ) :
    Virial.spreading_pressure p = Except.error PyErr.notImplementedError ∧
    ∀ v : ℚ, Virial.spreading_pressure p ≠ Except.ok v := by
  refine ⟨rfl, fun v h => ?_⟩
  simp [Virial.spreading_pressure] at h

/-- Claim C10: the parameters and return value of Virial.fit depend only on
the loading and pressure arrays; the param_guess and optimization_method
arguments are ignored, so two calls differing only in them coincide. -/
theorem c10_fit_ignores_guess_method {γ μ : Type} (logF expF sqrtF : ℚ → ℚ)
    (polyfit3 : List ℚ → List ℚ → (ℚ × ℚ × ℚ × ℚ) × ℚ)
    (loading pressure : List ℚ) (g1 g2 : γ) (m1 m2 : μ) (v : Bool) :
    Virial.fit logF expF sqrtF polyfit3 loading pressure g1 m1 v =
    Virial.fit logF expF sqrtF polyfit3 loading pressure g2 m2 v := rfl

/-- Claim C8: on any equal-length data set, Virial.fit feeds the transformed
values log(pressure/loading) to the degree-3 least-squares polynomial fit
and maps the coefficient array, ordered highest degree first, so that the
highest-order coefficient becomes C, the next B, the next A, and the
constant term c3 yields KH = exp(-c3); the returned value is
sqrt(residual_sum_of_squares / n_points). -/
theorem c8_virial_fit_mapping {γ μ : Type} (logF expF sqrtF : ℚ → ℚ)
    (polyfit3 : List ℚ → List ℚ → (ℚ × ℚ × ℚ × ℚ) × ℚ)
    (loading pressure : List ℚ) (g : γ) (m : μ) (v : Bool)
    (hlen : loading.length = pressure.length)
    (c0 c1 c2 c3 rss : ℚ)
    (hfit : polyfit3 loading (List.zipWith (fun p n => logF (p / n)) pressure loading) =
      ((c0, c1, c2, c3), rss)) :
    Virial.fit logF expF sqrtF polyfit3 loading pressure g m v =
      ({ KH := expF (-c3), A := c2, B := c1, C := c0 },
       sqrtF (rss / (pressure.length : ℚ))) := by
  simp only [Virial.fit]
  rw [hfit]

theorem c8_virial_fit_mapping_witness :
    Virial.fit (fun x => x) (fun x => x) (fun x => x) (fun _ _ => ((1, 2, 3, 4), 5))
      [(1 : ℚ)] [(1 : ℚ)] (0 : ℕ) (0 : ℕ) false =
      ({ KH := -4, A := 3, B := 2, C := 1 }, 5) := by
  rw [c8_virial_fit_mapping (fun x => x) (fun x => x) (fun x => x)
    (fun _ _ => ((1, 2, 3, 4), 5)) [(1 : ℚ)] [(1 : ℚ)] (0 : ℕ) (0 : ℕ) false rfl
    1 2 3 4 5 rfl]
  norm_num

/-- Claim C2 (refuted): area_BET accepts a limits argument but does not pass
it on to area_BET_raw, which therefore always runs in automatic mode.  The
first conjunct shows that the result of area_BET never depends on limits;
the remaining conjuncts evaluate the region selector on a concrete data set
where manual mode with limits (1/20, 3/10) picks the region (1, 2) while the
automatic heuristic picks (0, 2), so the supplied limits, had they been
honoured, would have produced a different fitted region. -/
theorem c2_limits_ignored :
    (∀ (lr : List ℚ → List ℚ → ℚ × ℚ × ℚ) (sf : ℚ → ℚ) (p0 cs : ℚ) (iso : Isotherm)
       (l1 l2 : Option (ℚ × ℚ)) (v : Bool),
       area_BET lr sf p0 cs iso l1 v = area_BET lr sf p0 cs iso l2 v) ∧
    bet_select_region (roq_transform [1, 2, 3, 1] [1/20, 1/10, 1/5, 3/10])
      [1/20, 1/10, 1/5, 3/10] (some (1/20, 3/10)) = Except.ok (1, 2) ∧
    bet_select_region (roq_transform [1, 2, 3, 1] [1/20, 1/10, 1/5, 3/10])
      [1/20, 1/10, 1/5, 3/10] none = Except.ok (0, 2) := by
  refine ⟨fun lr sf p0 cs iso l1 l2 v => rfl, ?_, ?_⟩
  · norm_num [bet_select_region, roq_transform, first_index_gt, last_index_lt]
  · norm_num [bet_select_region, roq_transform, first_index_gt, last_index_lt,
      auto_maximum_scan, pyGet]

/-- Claim C3 (refuted): on the concrete input loading = [1, 2] and
pressure = [1/10, 2/10] the Roquerol array [9/10, 8/5] never decreases, and
the automatic-mode forward scan, whose loop body reads the successor entry
roq_t_array[index + 1] even at the last index, runs past the end of the
array, so area_BET_raw raises IndexError instead of terminating with
maximum equal to the last index. -/
theorem c3_auto_scan_overrun :
    roq_transform [1, 2] [1/10, 2/10] = [9/10, 8/5] ∧
    area_BET_raw constLinregress idSqrt [1, 2] [1/10, 2/10] 1 none =
      Except.error PyErr.indexError := by
  constructor
  · norm_num [roq_transform]
  · norm_num [area_BET_raw, bet_select_region, roq_transform, auto_maximum_scan]

/-- Claim C4 (refuted): on loading = [1, 2, 3, 4],
pressure = [1/20, 1/10, 1/5, 3/10] with manual limits (1/20, 7/20) the
selected region is minimum = 1, maximum = 3, but the regression receives
only the two points at indices 1 and 2: the Python slice
loading[minimum:maximum] excludes index maximum.  The recording regression
stand-in returns the number of x points it received as the slope, and that
number is 2, not the 3 points of the inclusive range [1, 3]. -/
theorem c4_slice_excludes_maximum :
    Except.map (fun rw => (rw.1.minimum, rw.1.maximum, rw.1.slope))
      (area_BET_raw lengthLinregress idSqrt [1, 2, 3, 4] [1/20, 1/10, 1/5, 3/10] 1
        (some (1/20, 7/20))) = Except.ok (1, 3, (2 : ℚ)) := by
  norm_num [area_BET_raw, bet_select_region, roq_transform, first_index_gt,
    last_index_lt, pySlice, pyGet, bet_optimisation, lengthLinregress,
    bet_parameters, bet_transform, bet_check_warnings, Except.map]

/-- A mass-mode isotherm whose pressure mode is absolute, handed to
area_BET by a caller. -/
def c1Isotherm : Isotherm :=
  { mode_adsorbent := "mass", mode_pressure := "absolute",
    loading_data := [1, 2, 3, 1], pressure_data := [1/2, 1, 2, 3] }

/-- Claim C1 (refuted): area_BET on a caller isotherm whose pressure mode is
absolute does not leave the caller object unchanged: the in-place call to
convert_pressure_mode switches the pressure mode of the shared sample to
relative as a side effect. -/
theorem c1_mutates_counterexample :
    (area_BET constLinregress idSqrt 10 1 c1Isotherm none false).2.mode_pressure ≠
      c1Isotherm.mode_pressure := by
  simp only [area_BET, c1Isotherm, convert_pressure_mode]
  decide

/-- Claim C1 as amended: for a mass-mode sample, area_BET leaves the caller
isotherm unchanged only when its pressure mode is already relative;
otherwise the conversion is performed in place on the caller object, whose
pressure mode becomes relative and whose pressure data are rescaled by the
saturation pressure. -/
theorem c1_conversion_mutates (lr : List ℚ → List ℚ → ℚ × ℚ × ℚ) (sf : ℚ → ℚ)
    (p0 cs : ℚ) (iso : Isotherm) (limits : Option (ℚ × ℚ)) (v : Bool)
    (hm : iso.mode_adsorbent = "mass") :
    (iso.mode_pressure = "relative" → (area_BET lr sf p0 cs iso limits v).2 = iso) ∧
    (iso.mode_pressure ≠ "relative" →
      (area_BET lr sf p0 cs iso limits v).2 =
        { iso with mode_pressure := "relative",
                   pressure_data := iso.pressure_data.map (fun p => p / p0) }) := by
  simp only [area_BET]
  rw [if_neg (by simp [hm])]
  constructor
  · intro hrel
    simp [hrel]
  · intro hrel
    simp [hrel, convert_pressure_mode]

/-- A mass-mode isotherm already in relative pressure mode. -/
def c1RelIsotherm : Isotherm :=
  { mode_adsorbent := "mass", mode_pressure := "relative",
    loading_data := [1], pressure_data := [1/10] }

theorem c1_conversion_mutates_witness :
    ((area_BET constLinregress idSqrt 10 1 c1RelIsotherm none false).2 = c1RelIsotherm) ∧
    ((area_BET constLinregress idSqrt 10 1 c1Isotherm none false).2 =
      { c1Isotherm with mode_pressure := "relative",
                        pressure_data := c1Isotherm.pressure_data.map (fun p => p / 10) }) :=
  ⟨(c1_conversion_mutates constLinregress idSqrt 10 1 c1RelIsotherm none false rfl).1 rfl,
   (c1_conversion_mutates constLinregress idSqrt 10 1 c1Isotherm none false rfl).2
     (by simp [c1Isotherm])⟩

/-- Claim C5: for every input that reaches the consistency checks (the
length precondition holds, region selection succeeded and both boundary
loadings are in range), area_BET_raw returns a complete result record, and
the warnings of the violated checks are the list accompanying it; no check
outcome turns the computation into an error. -/
theorem c5_checks_nonfatal (lr : List ℚ → List ℚ → ℚ × ℚ × ℚ) (sf : ℚ → ℚ)
    (loading pressure : List ℚ) (cs : ℚ) (limits : Option (ℚ × ℚ))
    (m M : ℕ) (lmin lmax : ℚ)
    (hlen : pressure.length = loading.length)
    (hsel : bet_select_region (roq_transform loading pressure) pressure limits =
      Except.ok (m, M))
    (hmin : pyGet loading m = some lmin) (hmax : pyGet loading M = some lmax) :
    ∃ r : BETRawResult,
      area_BET_raw lr sf loading pressure cs limits =
        Except.ok (r, bet_check_warnings r.c_const r.corr_coef lmin lmax r.n_monolayer) := by
  simp only [area_BET_raw]
  rw [if_neg (by simp [hlen])]
  simp only [hsel]
  simp only [hmin, hmax]
  exact ⟨_, rfl⟩

theorem c5_checks_nonfatal_witness :
    ∃ r : BETRawResult,
      area_BET_raw constLinregress idSqrt [1, 2] [1/10, 1/5] 1 (some (0, 1)) =
        Except.ok (r, bet_check_warnings r.c_const r.corr_coef 1 2 r.n_monolayer) :=
  c5_checks_nonfatal constLinregress idSqrt [1, 2] [1/10, 1/5] 1 (some (0, 1)) 0 1 1 2
    (by norm_num)
    (by norm_num [bet_select_region, roq_transform, first_index_gt, last_index_lt])
    (by norm_num [pyGet]) (by norm_num [pyGet])

/-- Helper for claim C6: the length precondition of area_BET_raw fails fast,
before region selection, regression or parameter derivation. -/
theorem area_BET_raw_length_error (lr : List ℚ → List ℚ → ℚ × ℚ × ℚ) (sf : ℚ → ℚ)
    (loading pressure : List ℚ) (cs : ℚ) (limits : Option (ℚ × ℚ))
    (h : pressure.length ≠ loading.length) :
    area_BET_raw lr sf loading pressure cs limits =
      Except.error (PyErr.exception
        "The length of the pressure and loading arrays do not match") := by
  simp only [area_BET_raw]
  rw [if_pos h]

/-- Claim C6: area_BET fails fast with a descriptive error.  When the
adsorbent mode is not mass it returns the mode error immediately, with the
isotherm untouched and nothing computed; when the mode is mass but the
pressure and loading arrays have different lengths, the returned value is
the length error of the precondition check of area_BET_raw, raised before
region selection, for every choice of the external regression and square
root collaborators. -/
theorem c6_precondition_failfast (lr : List ℚ → List ℚ → ℚ × ℚ × ℚ) (sf : ℚ → ℚ)
    (p0 cs : ℚ) (iso : Isotherm) (limits : Option (ℚ × ℚ)) (v : Bool) :
    (iso.mode_adsorbent ≠ "mass" →
      area_BET lr sf p0 cs iso limits v =
        (Except.error (PyErr.exception
          "The isotherm must be in per mass of adsorbent.First convert it using implicit functions"),
         iso)) ∧
    (iso.mode_adsorbent = "mass" →
      iso.pressure_data.length ≠ iso.loading_data.length →
      (area_BET lr sf p0 cs iso limits v).1 =
        Except.error (PyErr.exception
          "The length of the pressure and loading arrays do not match")) := by
  constructor
  · intro h1
    simp only [area_BET]
    rw [if_pos h1]
  · intro h1 h2
    simp only [area_BET]
    rw [if_neg (by simp [h1])]
    have hlen2 : (if iso.mode_pressure ≠ "relative"
        then convert_pressure_mode iso "relative" p0 else iso).pressure_data.length ≠
        (if iso.mode_pressure ≠ "relative"
        then convert_pressure_mode iso "relative" p0 else iso).loading_data.length := by
      split
      · simpa [convert_pressure_mode] using h2
      · exact h2
    rw [area_BET_raw_length_error lr sf _ _ cs none hlen2]
    rfl

/-- An isotherm in volume adsorbent mode. -/
def c6VolumeIsotherm : Isotherm :=
  { mode_adsorbent := "volume", mode_pressure := "relative",
    loading_data := [1], pressure_data := [1/10] }

/-- A mass-mode isotherm whose pressure and loading arrays have different
lengths. -/
def c6MismatchIsotherm : Isotherm :=
  { mode_adsorbent := "mass", mode_pressure := "relative",
    loading_data := [1], pressure_data := [1/10, 1/5] }

theorem c6_precondition_failfast_witness :
    area_BET constLinregress idSqrt 1 1 c6VolumeIsotherm none false =
      (Except.error (PyErr.exception
        "The isotherm must be in per mass of adsorbent.First convert it using implicit functions"),
       c6VolumeIsotherm) ∧
    (area_BET constLinregress idSqrt 1 1 c6MismatchIsotherm none false).1 =
      Except.error (PyErr.exception
        "The length of the pressure and loading arrays do not match") :=
  ⟨(c6_precondition_failfast constLinregress idSqrt 1 1 c6VolumeIsotherm none false).1
     (by simp [c6VolumeIsotherm]),
   (c6_precondition_failfast constLinregress idSqrt 1 1 c6MismatchIsotherm none false).2
     rfl (by simp [c6MismatchIsotherm])⟩
